import Mathlib

/-!
Verification of the StateRedux todo application (src/app/index.jsx).

The file shallowly embeds the stateful logic of the app: the Redux
`todos` slice reducers (`addTodo`, `toggleTodo`, `removeTodo`,
`clearTodos`) and the `TodosCard` component's banner controller
(`showBanner`, `handleAddTodo`, `handleToggleDone`, `handleUndo`,
`handleDismiss`).

Modelling choices:
- `nanoid()` is modelled by a `nextId : Nat` counter threaded through the
  component state; each call returns the counter and bumps it, so distinct
  calls yield distinct ids (the only property the program relies on).
- `Date.now()` is modelled by a `now : Nat` field (milliseconds).
- JavaScript's `String.prototype.trim()` is modelled by `jsTrim`
  (drop whitespace from both ends), since the JS method is a builtin.
- `setTimeout(cb, 3000)` in `showBanner` is modelled by appending the
  fire time `now + 3000` to a `timers` list; `fireTimerAt` runs the
  scheduled callback body (which unconditionally clears the banner
  fields, exactly as in the source). The source never calls
  `clearTimeout`, so scheduling never removes an existing entry.
- The early `return` in `handleAddTodo` on a whitespace-only title is the
  function's failure path; it is embedded as `Except.error invalidInput`,
  the spec's name for that rejection. All other handlers are total.
-/

namespace StateRedux

/-- A todo record, as built by the `addTodo` prepare callback:
`{ id: nanoid(), title, done: false, createdAt: Date.now() }`. -/
structure Todo where
  id : Nat
  title : String
  done : Bool
  createdAt : Nat
  deriving Repr, DecidableEq

/-- JavaScript `String.prototype.trim()`: strip whitespace from both ends. -/
def jsTrim (s : String) : String :=
  String.mk (((s.data.dropWhile Char.isWhitespace).reverse.dropWhile
    Char.isWhitespace).reverse)

/-- The payload built by the `addTodo` prepare callback for a given fresh
id and clock value. -/
def mkTodo (id : Nat) (now : Nat) (title : String) : Todo :=
  { id := id, title := title, done := false, createdAt := now }

/-- Reducer `addTodo`: `state.items.unshift(action.payload)` where the
payload is prepared with a fresh id and the current time. -/
def addTodo (title : String) (id : Nat) (now : Nat) (items : List Todo) :
    List Todo :=
  mkTodo id now title :: items

/-- Reducer `toggleTodo`: find the first record with the given id and flip
its `done` flag; no record, no change. -/
def toggleTodo (id : Nat) : List Todo → List Todo
  | [] => []
  | t :: ts =>
      if t.id = id then { t with done := !t.done } :: ts
      else t :: toggleTodo id ts

/-- Reducer `removeTodo`: `state.items.filter((t) => t.id !== action.payload)`. -/
def removeTodo (id : Nat) (items : List Todo) : List Todo :=
  items.filter (fun t => t.id ≠ id)

/-- Reducer `clearTodos`: `state.items = []`. -/
def clearTodos (_items : List Todo) : List Todo := []

/-- The spec's error for adding a whitespace-only title. -/
inductive AddError where
  | invalidInput
  deriving Repr, DecidableEq

/-- Combined state of the Redux `todos` slice and the `TodosCard`
component: the items list, the four banner `useState` cells, the pending
`setTimeout` fire times, the id counter and the clock. -/
structure AppState where
  items : List Todo
  bannerVisible : Bool
  bannerMessage : String
  lastTodo : Option Todo
  lastAction : Option String
  timers : List Nat
  nextId : Nat
  now : Nat
  deriving Repr, DecidableEq

/-- Initial state: empty items list, banner hidden, no pending timers. -/
def initialAppState : AppState where
  items := []
  bannerVisible := false
  bannerMessage := ""
  lastTodo := none
  lastAction := none
  timers := []
  nextId := 0
  now := 0

/-- `showBanner(message, todo, action)`: set the message, remember the
todo and the action, show the banner, and schedule a dismissal callback
3000 ms from now. The source stores no timer handle and never calls
`clearTimeout`, so the previously scheduled fire times stay in place. -/
def showBanner (message : String) (todo : Todo) (action : String)
    (s : AppState) : AppState :=
  { s with
      bannerMessage := message
      lastTodo := some todo
      lastAction := some action
      bannerVisible := true
      timers := s.timers ++ [s.now + 3000] }

/-- `handleAddTodo`: reject a whitespace-only title, otherwise build a
local `newTodo` with its own fresh id, dispatch `addTodo(newTodo.title)`
(whose prepare callback draws a second, different fresh id for the stored
record), and show the banner referencing the local `newTodo`. -/
def handleAddTodo (title : String) (s : AppState) : Except AddError AppState :=
  if jsTrim title = "" then
    Except.error AddError.invalidInput
  else
    let newTodo : Todo := mkTodo s.nextId s.now (jsTrim title)
    let s1 : AppState :=
      { s with
          items := addTodo newTodo.title (s.nextId + 1) s.now s.items
          nextId := s.nextId + 2 }
    Except.ok
      (showBanner ("Added: \"" ++ newTodo.title ++ "\"") newTodo "add" s1)

/-- `handleToggleDone(todo)`: dispatch `toggleTodo(todo.id)`; if the todo
was not done, show the `Completed` banner, otherwise clear every banner
field. -/
def handleToggleDone (todo : Todo) (s : AppState) : AppState :=
  let s1 : AppState := { s with items := toggleTodo todo.id s.items }
  if !todo.done then
    showBanner ("Completed: \"" ++ todo.title ++ "\"") todo "done" s1
  else
    { s1 with
        bannerVisible := false
        lastTodo := none
        lastAction := none
        bannerMessage := "" }

/-- `handleUndo`: return unchanged when `lastTodo` or `lastAction` is
absent; otherwise reverse the remembered action (`remove` for an add,
`toggle` for a completion) and clear every banner field. -/
def handleUndo (s : AppState) : AppState :=
  match s.lastTodo, s.lastAction with
  | some lastTodo, some lastAction =>
      let s1 : AppState :=
        if lastAction = "add" then
          { s with items := removeTodo lastTodo.id s.items }
        else if lastAction = "done" then
          { s with items := toggleTodo lastTodo.id s.items }
        else s
      { s1 with
          bannerVisible := false
          lastTodo := none
          lastAction := none
          bannerMessage := "" }
  | _, _ => s

/-- `handleDismiss`: clear every banner field, leaving the items alone. -/
def handleDismiss (s : AppState) : AppState :=
  { s with
      bannerVisible := false
      lastTodo := none
      lastAction := none
      bannerMessage := "" }

/-- Advance the clock between user actions (time passing in the event
loop, no callback due). -/
def setNow (t : Nat) (s : AppState) : AppState := { s with now := t }

/-- Run the `setTimeout` callback scheduled for time `t`, if one is
pending: its body unconditionally hides the banner and clears the
remembered todo, action and message. With no callback pending at `t`
only the clock advances. -/
def fireTimerAt (t : Nat) (s : AppState) : AppState :=
  if t ∈ s.timers then
    { s with
        timers := s.timers.erase t
        now := t
        bannerVisible := false
        lastTodo := none
        lastAction := none
        bannerMessage := "" }
  else { s with now := t }

/-! ## Helper lemmas about the reducers -/

/-- Toggling the same id twice restores the items list exactly. -/
theorem toggleTodo_toggleTodo (id : Nat) (items : List Todo) :
    toggleTodo id (toggleTodo id items) = items := by
  induction items with
  | nil => rfl
  | cons t ts ih =>
      by_cases h : t.id = id
      · subst h
        simp [toggleTodo, Bool.not_not]
      · simp [toggleTodo, h, ih]

/-- Toggling an id that no record carries changes nothing. -/
theorem toggleTodo_eq_self_of_not_mem (id : Nat) (items : List Todo)
    (h : ∀ t ∈ items, t.id ≠ id) : toggleTodo id items = items := by
  induction items with
  | nil => rfl
  | cons t ts ih =>
      have ht : t.id ≠ id := h t (List.mem_cons_self t ts)
      have hts : toggleTodo id ts = ts :=
        ih (fun u hu => h u (List.mem_cons_of_mem t hu))
      simp [toggleTodo, ht, hts]

/-- Removing an id that no record carries changes nothing. -/
theorem removeTodo_eq_self_of_not_mem (id : Nat) (items : List Todo)
    (h : ∀ t ∈ items, t.id ≠ id) : removeTodo id items = items := by
  unfold removeTodo
  refine List.filter_eq_self.mpr ?_
  intro t ht
  simpa using h t ht

/-- After a removal, no surviving record carries the removed id. -/
theorem not_mem_removeTodo (id : Nat) (items : List Todo) :
    ∀ t ∈ removeTodo id items, t.id ≠ id := by
  intro t ht
  have := List.mem_filter.mp ht
  simpa using this.2

/-! ## Claim theorems -/

/-- C3: for every title whose trimmed value is empty (for example `""` or
`"   "`), the add entry point takes its rejection path — embedded as the
`InvalidInput` error — and produces no successor state, so the todo store
is left unchanged: no record inserted, count unchanged. -/
theorem C3_add_blank_title_rejected (s : AppState) (title : String)
    (h : jsTrim title = "") :
    handleAddTodo title s = Except.error AddError.invalidInput := by
  simp [handleAddTodo, h]

theorem C3_add_blank_title_rejected_witness :
    jsTrim "   " = "" ∧
    handleAddTodo "   " initialAppState = Except.error AddError.invalidInput :=
  ⟨by decide, C3_add_blank_title_rejected initialAppState "   " (by decide)⟩

/-- C4: for a title with non-empty trimmed value and a fresh id, `addTodo`
grows the store by exactly one record, prepends the new record (so it is
first in order) with `done = false`, keeps every previously present record
unchanged and in its prior relative order, preserves the uniqueness of
ids, and adding "A" then "B" yields the order [B, A] (newest first). -/
theorem C4_add_prepends_fresh_record (items : List Todo) (title : String)
    (id now idB nowB : Nat) (_h : jsTrim title ≠ "")
    (hfresh : ∀ t ∈ items, t.id ≠ id)
    (hnodup : (items.map Todo.id).Nodup) :
    (addTodo title id now items).length = items.length + 1 ∧
    addTodo title id now items = mkTodo id now title :: items ∧
    (mkTodo id now title).done = false ∧
    ((addTodo title id now items).map Todo.id).Nodup ∧
    (addTodo "B" idB nowB (addTodo "A" id now items)).map Todo.title
      = "B" :: "A" :: items.map Todo.title := by
  refine ⟨rfl, rfl, rfl, ?_, by simp [addTodo, mkTodo]⟩
  simp only [addTodo, mkTodo, List.map_cons, List.nodup_cons]
  refine ⟨?_, hnodup⟩
  intro hmem
  rcases List.mem_map.mp hmem with ⟨t, ht, hid⟩
  exact hfresh t ht hid

theorem C4_add_prepends_fresh_record_witness :
    (addTodo "A" 7 1 [mkTodo 5 0 "old"]).length = [mkTodo 5 0 "old"].length + 1 ∧
    addTodo "A" 7 1 [mkTodo 5 0 "old"] = mkTodo 7 1 "A" :: [mkTodo 5 0 "old"] ∧
    (mkTodo 7 1 "A").done = false ∧
    ((addTodo "A" 7 1 [mkTodo 5 0 "old"]).map Todo.id).Nodup ∧
    (addTodo "B" 9 2 (addTodo "A" 7 1 [mkTodo 5 0 "old"])).map Todo.title
      = "B" :: "A" :: [mkTodo 5 0 "old"].map Todo.title :=
  C4_add_prepends_fresh_record [mkTodo 5 0 "old"] "A" 7 1 9 2 (by decide)
    (by decide) (by decide)

/-- C5: for every store state and every id present in it, toggling that id
twice restores the items list exactly: the record's `done` flag is back to
its original value and the store is otherwise observably identical. -/
theorem C5_toggle_twice_roundtrip (items : List Todo) (id : Nat)
    (_h : id ∈ items.map Todo.id) :
    toggleTodo id (toggleTodo id items) = items :=
  toggleTodo_toggleTodo id items

theorem C5_toggle_twice_roundtrip_witness :
    3 ∈ ([mkTodo 3 0 "x"].map Todo.id) ∧
    toggleTodo 3 (toggleTodo 3 [mkTodo 3 0 "x"]) = [mkTodo 3 0 "x"] :=
  ⟨by decide, C5_toggle_twice_roundtrip [mkTodo 3 0 "x"] 3 (by decide)⟩

/-- C6: for every store state and every id, removing the id twice yields
the same store as removing it once — `removeTodo` is idempotent. -/
theorem C6_remove_idempotent (items : List Todo) (id : Nat) :
    removeTodo id (removeTodo id items) = removeTodo id items :=
  removeTodo_eq_self_of_not_mem id (removeTodo id items)
    (not_mem_removeTodo id items)

/-- C7: `toggleTodo` and `removeTodo` on an id no record carries leave the
items unchanged; `handleUndo` with the controller Idle (no remembered todo
or action) returns the state unchanged; and `handleDismiss` in any state
whatsoever — `s` is a separate state the hypotheses do not constrain, so
this covers a Showing controller too — never touches the items. All four
are total functions: none can fail or raise. -/
theorem C7_missing_id_and_idle_noops (s u : AppState) (items : List Todo)
    (id : Nat) (habs : ∀ t ∈ items, t.id ≠ id)
    (hidle : u.lastTodo = none ∨ u.lastAction = none) :
    toggleTodo id items = items ∧
    removeTodo id items = items ∧
    handleUndo u = u ∧
    (handleDismiss s).items = s.items := by
  refine ⟨toggleTodo_eq_self_of_not_mem id items habs,
    removeTodo_eq_self_of_not_mem id items habs, ?_, rfl⟩
  cases hlt : u.lastTodo with
  | none => simp [handleUndo, hlt]
  | some t =>
      cases hla : u.lastAction with
      | none => simp [handleUndo, hlt, hla]
      | some a =>
          rcases hidle with h1 | h2
          · rw [hlt] at h1
            simp at h1
          · rw [hla] at h2
            simp at h2

theorem C7_missing_id_and_idle_noops_witness :
    toggleTodo 2 [mkTodo 1 0 "x"] = [mkTodo 1 0 "x"] ∧
    removeTodo 2 [mkTodo 1 0 "x"] = [mkTodo 1 0 "x"] ∧
    handleUndo initialAppState = initialAppState ∧
    (handleDismiss (showBanner "msg" (mkTodo 6 0 "y") "add"
        initialAppState)).items
      = (showBanner "msg" (mkTodo 6 0 "y") "add" initialAppState).items :=
  C7_missing_id_and_idle_noops
    (showBanner "msg" (mkTodo 6 0 "y") "add" initialAppState)
    initialAppState [mkTodo 1 0 "x"] 2 (by decide) (Or.inl rfl)

/-- C8: toggling a record that is in the store and not yet done produces a
Showing banner with `lastAction = "done"` referencing that record, and a
subsequent `handleUndo` toggles it back: the store is exactly as before
(so that record is present with `done = false` again) and the controller
is Idle. -/
theorem C8_undo_complete_reverts (s : AppState) (t : Todo)
    (hmem : t ∈ s.items) (hdone : t.done = false) :
    (handleToggleDone t s).lastAction = some "done" ∧
    (handleToggleDone t s).bannerVisible = true ∧
    (handleUndo (handleToggleDone t s)).items = s.items ∧
    t ∈ (handleUndo (handleToggleDone t s)).items ∧
    t.done = false ∧
    (handleUndo (handleToggleDone t s)).bannerVisible = false ∧
    (handleUndo (handleToggleDone t s)).lastTodo = none ∧
    (handleUndo (handleToggleDone t s)).lastAction = none := by
  have hstep : handleToggleDone t s
      = showBanner ("Completed: \"" ++ t.title ++ "\"") t "done"
          { s with items := toggleTodo t.id s.items } := by
    simp [handleToggleDone, hdone]
  rw [hstep]
  simp [handleUndo, showBanner, toggleTodo_toggleTodo, hmem, hdone]

theorem C8_undo_complete_reverts_witness :
    (handleToggleDone (mkTodo 4 0 "w")
        { initialAppState with items := [mkTodo 4 0 "w"] }).lastAction
      = some "done" ∧
    (handleToggleDone (mkTodo 4 0 "w")
        { initialAppState with items := [mkTodo 4 0 "w"] }).bannerVisible
      = true ∧
    (handleUndo (handleToggleDone (mkTodo 4 0 "w")
        { initialAppState with items := [mkTodo 4 0 "w"] })).items
      = ({ initialAppState with items := [mkTodo 4 0 "w"] } : AppState).items ∧
    mkTodo 4 0 "w" ∈ (handleUndo (handleToggleDone (mkTodo 4 0 "w")
        { initialAppState with items := [mkTodo 4 0 "w"] })).items ∧
    (mkTodo 4 0 "w").done = false ∧
    (handleUndo (handleToggleDone (mkTodo 4 0 "w")
        { initialAppState with items := [mkTodo 4 0 "w"] })).bannerVisible
      = false ∧
    (handleUndo (handleToggleDone (mkTodo 4 0 "w")
        { initialAppState with items := [mkTodo 4 0 "w"] })).lastTodo
      = none ∧
    (handleUndo (handleToggleDone (mkTodo 4 0 "w")
        { initialAppState with items := [mkTodo 4 0 "w"] })).lastAction
      = none :=
  C8_undo_complete_reverts { initialAppState with items := [mkTodo 4 0 "w"] }
    (mkTodo 4 0 "w") (by decide) rfl

/-- C9: toggling a record currently marked done transitions the banner
controller directly to Idle — banner not visible, no remembered todo or
action, empty message — whatever the controller's prior state was; the
store still receives the toggle. -/
theorem C9_uncomplete_goes_idle (s : AppState) (t : Todo)
    (hdone : t.done = true) :
    (handleToggleDone t s).bannerVisible = false ∧
    (handleToggleDone t s).lastTodo = none ∧
    (handleToggleDone t s).lastAction = none ∧
    (handleToggleDone t s).bannerMessage = "" ∧
    (handleToggleDone t s).items = toggleTodo t.id s.items := by
  simp [handleToggleDone, hdone]

theorem C9_uncomplete_goes_idle_witness :
    (handleToggleDone (Todo.mk 2 "b" true 0)
        (showBanner "m" (mkTodo 9 0 "z") "add" initialAppState)).bannerVisible
      = false ∧
    (handleToggleDone (Todo.mk 2 "b" true 0)
        (showBanner "m" (mkTodo 9 0 "z") "add" initialAppState)).lastTodo
      = none ∧
    (handleToggleDone (Todo.mk 2 "b" true 0)
        (showBanner "m" (mkTodo 9 0 "z") "add" initialAppState)).lastAction
      = none ∧
    (handleToggleDone (Todo.mk 2 "b" true 0)
        (showBanner "m" (mkTodo 9 0 "z") "add" initialAppState)).bannerMessage
      = "" ∧
    (handleToggleDone (Todo.mk 2 "b" true 0)
        (showBanner "m" (mkTodo 9 0 "z") "add" initialAppState)).items
      = toggleTodo 2
          (showBanner "m" (mkTodo 9 0 "z") "add" initialAppState).items :=
  C9_uncomplete_goes_idle
    (showBanner "m" (mkTodo 9 0 "z") "add" initialAppState)
    (Todo.mk 2 "b" true 0) rfl

/-- C10: for a title with non-empty trimmed value, the add entry point
stores a record whose title is the trimmed input, as the first element of
the items list, and shows the banner message `Added: "<trimmed title>"`
quoting that same trimmed text. -/
theorem C10_add_stores_trimmed_title (s : AppState) (title : String)
    (h : jsTrim title ≠ "") :
    Except.map
        (fun s' => (s'.items.head?.map Todo.title, s'.bannerMessage))
        (handleAddTodo title s)
      = Except.ok (some (jsTrim title),
          "Added: \"" ++ jsTrim title ++ "\"") := by
  simp [handleAddTodo, h, addTodo, mkTodo, showBanner, Except.map]

theorem C10_add_stores_trimmed_title_witness :
    jsTrim "  hi  " ≠ "" ∧
    Except.map
        (fun s' => (s'.items.head?.map Todo.title, s'.bannerMessage))
        (handleAddTodo "  hi  " initialAppState)
      = Except.ok (some (jsTrim "  hi  "),
          "Added: \"" ++ jsTrim "  hi  " ++ "\"") :=
  ⟨by decide,
    C10_add_stores_trimmed_title initialAppState "  hi  " (by decide)⟩

/-- C1 (evaluation at the failing input): adding "A" from the initial
state leaves the controller Showing with `lastAction = "add"`, but the
banner's remembered todo carries id 0 while the record actually inserted
into the store carries id 1 (the prepare callback drew its own fresh id).
`handleUndo` therefore removes id 0, which is absent from the store, so
after undo the store still holds one record: the add's count increase is
not reversed, contradicting the claim (the controller does reach Idle). -/
theorem C1_undo_add_leaves_record_eval :
    Except.map
        (fun s' => (s'.lastAction, s'.bannerVisible,
          s'.items.map Todo.id, s'.lastTodo.map Todo.id,
          (handleUndo s').items.length, (handleUndo s').lastAction,
          (handleUndo s').bannerVisible))
        (handleAddTodo "A" initialAppState)
      = Except.ok (some "add", true, [1], some 0, 1, none, false) := by
  rfl

/-- C2 (evaluation at the failing input): showing a banner at time 0
schedules a dismissal callback for time 3000; showing a second banner at
time 1000 schedules a second callback for time 4000 without cancelling the
first (both fire times are pending). The first callback fires at time
3000 — only 2000 ms after the most recent Showing transition — and hides
the newer banner, contradicting the claim that the earlier action's timer
never dismisses the later action's banner. -/
theorem C2_stale_timer_dismisses_newer_banner_eval :
    (showBanner "m2" (mkTodo 1 1000 "B") "add"
        (setNow 1000 (showBanner "m1" (mkTodo 0 0 "A") "add"
          initialAppState))).timers = [3000, 4000] ∧
    (showBanner "m2" (mkTodo 1 1000 "B") "add"
        (setNow 1000 (showBanner "m1" (mkTodo 0 0 "A") "add"
          initialAppState))).bannerVisible = true ∧
    (fireTimerAt 3000 (showBanner "m2" (mkTodo 1 1000 "B") "add"
        (setNow 1000 (showBanner "m1" (mkTodo 0 0 "A") "add"
          initialAppState)))).bannerVisible = false ∧
    3000 < 1000 + 3000 := by
  decide

end StateRedux
